import Mathlib

/-!
Verification of the lock/authentication lifecycle controller of the
Consensys/metamask-mobile fork: the `authStateMachine` parent saga and the
`biometricsListener` child saga.  The saga bodies themselves are not part of
the visible sources; what is visible is their unit-test file
(`src/app/component-library/components/BaseAvatar/BaseAvatar.types.ts`,
second embedded document), which pins the exact sequence of yielded
redux-saga effects and the timing of the navigation side effects.  The
definitions below are therefore modelled from the specification
(`spec.md` sections 3-5), with every point that the test file pins taken
from the test file.
-/

/-- The redux action types (bus signals) consumed by the sagas, imported in
the test file from `actions/user`: `IN_APP` is the spec's `AppForegrounded`,
`OUT_APP` is `AppBackgrounded`, `LOCKED_APP` is `LockEngaged`,
`BIOMETRICS_SUCCESS` is `BiometricSucceeded`, `AUTH_SUCCESS` is
`AuthSucceeded` and `AUTH_ERROR` is `AuthErrored`. -/
inductive ActionType where
  | IN_APP
  | OUT_APP
  | LOCKED_APP
  | BIOMETRICS_SUCCESS
  | AUTH_SUCCESS
  | AUTH_ERROR
deriving DecidableEq, Repr

namespace Routes

/-- Route name used by `navigate` and by the re-lock `StackActions.replace`;
the test file uses the literal string `LockScreen`. -/
def LOCK_SCREEN : String := "LockScreen"

/-- Modelled from the spec: the onboarding-complete wallet-home route
(`Routes.ONBOARDING.HOME_NAV` in the test file); the route table itself is
an external collaborator, so the concrete string is a model constant. -/
def HOME_NAV : String := "HomeNav"

/-- Modelled from the spec: the wallet view screen parameter
(`Routes.WALLET_VIEW` in the test file). -/
def WALLET_VIEW : String := "WalletView"

end Routes

/-- A navigation command issued through the `NavigationService` port:
`navigate r` is `navigation.navigate(r)`, `replaceStack r s` is
`navigation.dispatch(StackActions.replace(r, { screen: s }))` (the test
file shows both a screen-carrying replace, for the wallet home, and a
parameterless one, for the lock screen). -/
inductive NavCommand where
  | navigate (route : String)
  | replaceStack (route : String) (screen : Option String)
deriving DecidableEq, Repr

/-- The suspension points of one `biometricsListener` instance
(spec section 4.2), plus the terminal `done`. -/
inductive ListenerState where
  | waitingForLock
  | waitingForBiometricSuccess
  | waitingForOutcome
  | done
deriving DecidableEq, Repr

/-- Modelled from the spec: one delivery of a published signal to a
suspended `biometricsListener` instance.  The waits are, in program order,
`take(LOCKED_APP)`, then `take(BIOMETRICS_SUCCESS)`, then the race
`take([AUTH_SUCCESS, LOCKED_APP, AUTH_ERROR])`; a signal the listener is
not currently waiting on is simply unobserved (spec section 7).  The test
file (first `it` block) pins the timing of the `navigate('LockScreen')`
side effect: it has already been performed once `take(LOCKED_APP)` has
resolved and the generator has reached `take(BIOMETRICS_SUCCESS)`, so the
navigate is attached to the receipt of `LOCKED_APP`.  The outcome branch
(second and third `it` blocks) dispatches the wallet-home replace on
`AUTH_SUCCESS` and the lock-screen replace otherwise. -/
def listenerStep : ListenerState → ActionType → ListenerState × List NavCommand
  | .waitingForLock, .LOCKED_APP =>
      (.waitingForBiometricSuccess, [NavCommand.navigate Routes.LOCK_SCREEN])
  | .waitingForBiometricSuccess, .BIOMETRICS_SUCCESS =>
      (.waitingForOutcome, [])
  | .waitingForOutcome, .AUTH_SUCCESS =>
      (.done, [NavCommand.replaceStack Routes.HOME_NAV (some Routes.WALLET_VIEW)])
  | .waitingForOutcome, .LOCKED_APP =>
      (.done, [NavCommand.replaceStack Routes.LOCK_SCREEN none])
  | .waitingForOutcome, .AUTH_ERROR =>
      (.done, [NavCommand.replaceStack Routes.LOCK_SCREEN none])
  | s, _ => (s, [])

/-- The two suspension points of the parent `authStateMachine` loop
(spec section 4.1): waiting for `IN_APP` (state `Idle`) or waiting for
`OUT_APP` (state `Active`). -/
inductive ParentState where
  | awaitingForeground
  | awaitingBackground
deriving DecidableEq, Repr

/-- A live forked `biometricsListener` task: its task identifier (fork
order) and its current suspension point. -/
structure Child where
  id : Nat
  state : ListenerState
deriving DecidableEq, Repr

/-- The whole-system state: the parent saga's suspension point, the list of
live (forked, not yet terminated or cancelled) listener tasks, the task
handle the parent retained from its last fork, and the next fresh task
identifier. -/
structure SysState where
  parent : ParentState
  children : List Child
  retained : Option Nat
  nextId : Nat
deriving DecidableEq, Repr

/-- A navigation command together with the identifier of the listener task
that issued it. -/
structure TaggedCmd where
  sessionId : Nat
  cmd : NavCommand
deriving DecidableEq, Repr

/-- Deliver one signal to one live listener task: `none` when the task's
generator returns (its terminal navigation dispatch, if any, having been
performed), together with the commands it issued, tagged with its id. -/
def stepChild (c : Child) (a : ActionType) : Option Child × List TaggedCmd :=
  let r := listenerStep c.state a
  (if r.1 = ListenerState.done then none else some ⟨c.id, r.1⟩,
   r.2.map (fun k => ⟨c.id, k⟩))

/-- Deliver one signal to every live listener task (bus fan-out,
spec section 5), dropping tasks whose generator has returned. -/
def stepChildren : List Child → ActionType → List Child × List TaggedCmd
  | [], _ => ([], [])
  | c :: cs, a =>
      let r := stepChild c a
      let rs := stepChildren cs a
      (match r.1 with
       | none => rs.1
       | some d => d :: rs.1, r.2 ++ rs.2)

/-- Modelled from the spec: cooperative cancellation of the retained task
handle (`yield cancel(biometricsListenerTask)`): the task, if still live,
is removed without running any further step; cancelling a handle that is
no longer live is a no-op. -/
def cancelChild (cs : List Child) : Option Nat → List Child
  | none => cs
  | some i => cs.filter (fun c => c.id ≠ i)

/-- Modelled from the spec: delivery of one published signal to the whole
system.  `IN_APP` and `OUT_APP` are awaited only by the parent
`authStateMachine` (its test: `take(IN_APP)`, fork, `take(OUT_APP)`,
cancel, and the spec's section 4.1 loop); the four auth/lock signals are
awaited only by listener tasks.  A signal nobody is waiting on is
unobserved. -/
def sysStep (s : SysState) (a : ActionType) : SysState × List TaggedCmd :=
  match a with
  | .IN_APP =>
      match s.parent with
      | .awaitingForeground =>
          (⟨.awaitingBackground,
            s.children ++ [⟨s.nextId, ListenerState.waitingForLock⟩],
            some s.nextId, s.nextId + 1⟩, [])
      | .awaitingBackground => (s, [])
  | .OUT_APP =>
      match s.parent with
      | .awaitingBackground =>
          (⟨.awaitingForeground, cancelChild s.children s.retained,
            none, s.nextId⟩, [])
      | .awaitingForeground => (s, [])
  | _ =>
      let r := stepChildren s.children a
      (⟨s.parent, r.1, s.retained, s.nextId⟩, r.2)

/-- Run the system over a published signal sequence, collecting the issued
navigation commands in order. -/
def sysRun : SysState → List ActionType → SysState × List TaggedCmd
  | s, [] => (s, [])
  | s, a :: as =>
      let r := sysStep s a
      let rs := sysRun r.1 as
      (rs.1, r.2 ++ rs.2)

/-- The initial system state: parent at its first `take(IN_APP)`, no
listener task ever forked. -/
def initSys : SysState := ⟨.awaitingForeground, [], none, 0⟩

/-- The navigation-command sequence the system emits on a given published
signal sequence, starting from the initial state. -/
def run (as : List ActionType) : List NavCommand :=
  ((sysRun initSys as).2).map TaggedCmd.cmd

/-- Reference to a saga function passed to `fork`. -/
inductive SagaRef where
  | biometricsListenerRef
deriving DecidableEq, Repr

/-- A redux-saga effect as yielded by the sagas under test: `takeEff ps`
is `take(p)` for a single pattern or `take([...])` for a race,
`forkEff g` is `fork(g)`, and `cancelEff t` is `cancel(task)` against a
retained task handle. -/
inductive Effect where
  | takeEff (pattern : List ActionType)
  | forkEff (saga : SagaRef)
  | cancelEff (task : Option Nat)
deriving DecidableEq, Repr

/-- The value a suspended saga generator is resumed with by the runtime:
`unit` for an effect with no meaningful result, `task i` for the handle a
`fork` returns, `action a` for the action a `take` returns. -/
inductive ResumeVal where
  | unit
  | task (i : Nat)
  | action (a : ActionType)
deriving DecidableEq, Repr

/-- The task handle carried by a resume value, if any. -/
def taskOf : ResumeVal → Option Nat
  | .task i => some i
  | _ => none

/-- The suspension state of the `authStateMachine` generator: the index of
the yield it is suspended at (0 = `take(IN_APP)`, 1 = `fork`,
2 = `take(OUT_APP)`, 3 = `cancel`) and the task handle currently retained
from the last `fork`. -/
structure AuthGenState where
  pc : Fin 4
  retained : Option Nat
deriving DecidableEq, Repr

/-- The generator state `authStateMachine()` starts in: suspended at its
first `take(IN_APP)` with no retained handle. -/
def authGenInit : AuthGenState := ⟨0, none⟩

/-- Modelled from the spec: one resumption of the `authStateMachine`
generator.  Its yield sequence is pinned by the test file's fourth and
fifth `it` blocks: `take(IN_APP)`, then `fork(biometricsListener)`, then
`take(OUT_APP)`, then `cancel` of the handle the fork resumed with; the
spec's section 4.1 makes the body an unbounded loop, so after the cancel
the generator discards the handle and is back at `take(IN_APP)`.  Each
resumption returns the new suspension state, the navigation commands the
body performed on the way (the parent body performs none), and the next
yielded effect. -/
def authGenStep (g : AuthGenState) (v : ResumeVal) :
    AuthGenState × List NavCommand × Effect :=
  match g.pc with
  | 0 => (⟨1, g.retained⟩, [], Effect.forkEff SagaRef.biometricsListenerRef)
  | 1 => (⟨2, taskOf v⟩, [], Effect.takeEff [ActionType.OUT_APP])
  | 2 => (⟨3, g.retained⟩, [], Effect.cancelEff g.retained)
  | 3 => (⟨0, none⟩, [], Effect.takeEff [ActionType.IN_APP])

/-- The effect `authStateMachine()` yields at its very first `next()`. -/
def authGenFirstEffect : Effect := Effect.takeEff [ActionType.IN_APP]

/-- The suspension state of the `authStateMachine` generator after `n`
resumptions, the runtime's resume values being given by `vs`. -/
def authTraceState (vs : Nat → ResumeVal) : Nat → AuthGenState
  | 0 => authGenInit
  | n + 1 => (authGenStep (authTraceState vs n) (vs n)).1

/-- The effect the `authStateMachine` generator is suspended at after `n`
resumptions (`n = 0` is the first `next()`). -/
def authEffectAt (vs : Nat → ResumeVal) : Nat → Effect
  | 0 => authGenFirstEffect
  | n + 1 => (authGenStep (authTraceState vs n) (vs n)).2.2

/-- The navigation commands the `authStateMachine` body performs during its
`n`-th resumption. -/
def authCmdsAt (vs : Nat → ResumeVal) (n : Nat) : List NavCommand :=
  (authGenStep (authTraceState vs n) (vs n)).2.1

/-- The suspension state of the `biometricsListener` generator: the index
of the yield it is suspended at (0 = `take(LOCKED_APP)`,
1 = `take(BIOMETRICS_SUCCESS)`, 2 = the outcome race). -/
structure ListenerGenState where
  pc : Fin 3
deriving DecidableEq, Repr

/-- One resumption of the `biometricsListener` generator: either it reaches
its next yield (having performed the listed navigation commands on the
way), or its body returns. -/
inductive ListenerGenOut where
  | yielded (cmds : List NavCommand) (eff : Effect) (next : ListenerGenState)
  | finished (cmds : List NavCommand)
deriving DecidableEq, Repr

/-- The effect `biometricsListener()` yields at its very first `next()`:
`take(LOCKED_APP)` (test file, first `it` block). -/
def listenerGenFirstEffect : Effect := Effect.takeEff [ActionType.LOCKED_APP]

/-- Modelled from the spec: one resumption of the `biometricsListener`
generator, pinned by the test file's three `it` blocks: resumed out of
`take(LOCKED_APP)` it calls `navigate('LockScreen')` and yields
`take(BIOMETRICS_SUCCESS)`; resumed out of that it yields the race
`take([AUTH_SUCCESS, LOCKED_APP, AUTH_ERROR])`; resumed out of the race
with an action it dispatches the wallet-home replace when that action is
`AUTH_SUCCESS` and the lock-screen replace otherwise, then returns. -/
def listenerGenStep (g : ListenerGenState) (v : ResumeVal) : ListenerGenOut :=
  match g.pc with
  | 0 => .yielded [NavCommand.navigate Routes.LOCK_SCREEN]
      (Effect.takeEff [ActionType.BIOMETRICS_SUCCESS]) ⟨1⟩
  | 1 => .yielded []
      (Effect.takeEff
        [ActionType.AUTH_SUCCESS, ActionType.LOCKED_APP, ActionType.AUTH_ERROR]) ⟨2⟩
  | 2 => .finished
      (if v = ResumeVal.action ActionType.AUTH_SUCCESS then
        [NavCommand.replaceStack Routes.HOME_NAV (some Routes.WALLET_VIEW)]
      else
        [NavCommand.replaceStack Routes.LOCK_SCREEN none])

/-- Small-step delivery relation: `StepRel s a s' cs` holds when publishing
signal `a` in system state `s` moves the system to `s'` issuing the tagged
commands `cs`.  One constructor per transition of the two sagas. -/
inductive StepRel : SysState → ActionType → SysState → List TaggedCmd → Prop where
  | foreground_fork (ch : List Child) (r : Option Nat) (n : Nat) :
      StepRel ⟨.awaitingForeground, ch, r, n⟩ .IN_APP
        ⟨.awaitingBackground, ch ++ [⟨n, ListenerState.waitingForLock⟩], some n, n + 1⟩ []
  | foreground_repeat (ch : List Child) (r : Option Nat) (n : Nat) :
      StepRel ⟨.awaitingBackground, ch, r, n⟩ .IN_APP
        ⟨.awaitingBackground, ch, r, n⟩ []
  | background_cancel (ch : List Child) (r : Option Nat) (n : Nat) :
      StepRel ⟨.awaitingBackground, ch, r, n⟩ .OUT_APP
        ⟨.awaitingForeground, cancelChild ch r, none, n⟩ []
  | background_ignored (ch : List Child) (r : Option Nat) (n : Nat) :
      StepRel ⟨.awaitingForeground, ch, r, n⟩ .OUT_APP
        ⟨.awaitingForeground, ch, r, n⟩ []
  | deliver (p : ParentState) (ch : List Child) (r : Option Nat) (n : Nat)
      (a : ActionType) (h1 : a ≠ .IN_APP) (h2 : a ≠ .OUT_APP) :
      StepRel ⟨p, ch, r, n⟩ a ⟨p, (stepChildren ch a).1, r, n⟩ (stepChildren ch a).2

/-- Big-step run relation: `RunRel s as s' cs` holds when feeding the
signal sequence `as` from state `s` ends in `s'` with the tagged commands
`cs` issued, in order. -/
inductive RunRel : SysState → List ActionType → SysState → List TaggedCmd → Prop where
  | nil (s : SysState) : RunRel s [] s []
  | cons (s : SysState) (a : ActionType) (as : List ActionType)
      (s1 s2 : SysState) (cs cs1 : List TaggedCmd)
      (hstep : StepRel s a s1 cs) (hrest : RunRel s1 as s2 cs1) :
      RunRel s (a :: as) s2 (cs ++ cs1)

lemma stepRel_deterministic {s : SysState} {a : ActionType} {s1 s2 : SysState}
    {cs1 cs2 : List TaggedCmd} (h1 : StepRel s a s1 cs1) (h2 : StepRel s a s2 cs2) :
    s1 = s2 ∧ cs1 = cs2 := by
  cases h1 <;> cases h2 <;> simp_all

lemma runRel_deterministic {s : SysState} {as : List ActionType} {s1 s2 : SysState}
    {cs1 cs2 : List TaggedCmd} (h1 : RunRel s as s1 cs1) (h2 : RunRel s as s2 cs2) :
    s1 = s2 ∧ cs1 = cs2 := by
  induction h1 generalizing s2 cs2 with
  | nil s => cases h2 with
    | nil => exact ⟨rfl, rfl⟩
  | cons s a as t1 t2 ds ds1 hstep hrest ih =>
      cases h2 with
      | cons _ _ _ u1 u2 es es1 hstep2 hrest2 =>
          obtain ⟨he, hc⟩ := stepRel_deterministic hstep hstep2
          subst he
          obtain ⟨he2, hc2⟩ := ih hrest2
          exact ⟨he2, by rw [hc, hc2]⟩

lemma stepRel_sysStep (s : SysState) (a : ActionType) :
    StepRel s a (sysStep s a).1 (sysStep s a).2 := by
  obtain ⟨p, ch, r, n⟩ := s
  cases a with
  | IN_APP =>
      cases p with
      | awaitingForeground => exact StepRel.foreground_fork ch r n
      | awaitingBackground => exact StepRel.foreground_repeat ch r n
  | OUT_APP =>
      cases p with
      | awaitingForeground => exact StepRel.background_ignored ch r n
      | awaitingBackground => exact StepRel.background_cancel ch r n
  | LOCKED_APP => exact StepRel.deliver p ch r n _ (by simp) (by simp)
  | BIOMETRICS_SUCCESS => exact StepRel.deliver p ch r n _ (by simp) (by simp)
  | AUTH_SUCCESS => exact StepRel.deliver p ch r n _ (by simp) (by simp)
  | AUTH_ERROR => exact StepRel.deliver p ch r n _ (by simp) (by simp)

lemma runRel_sysRun (s : SysState) (as : List ActionType) :
    RunRel s as (sysRun s as).1 (sysRun s as).2 := by
  induction as generalizing s with
  | nil => exact RunRel.nil s
  | cons a as ih =>
      exact RunRel.cons s a as (sysStep s a).1 (sysRun (sysStep s a).1 as).1
        (sysStep s a).2 (sysRun (sysStep s a).1 as).2
        (stepRel_sysStep s a) (ih (sysStep s a).1)

lemma sysRun_append (s : SysState) (as bs : List ActionType) :
    sysRun s (as ++ bs) =
      ((sysRun (sysRun s as).1 bs).1,
       (sysRun s as).2 ++ (sysRun (sysRun s as).1 bs).2) := by
  induction as generalizing s with
  | nil => simp [sysRun]
  | cons a as ih => simp [sysRun, ih]

/-- Shape invariant maintained by every reachable system state: while the
parent is at `take(IN_APP)` no listener task is live, and while it is at
`take(OUT_APP)` the retained handle names the only possibly-live task and
was allocated below the fresh-id counter. -/
def ChildrenOk (s : SysState) : Prop :=
  match s.parent with
  | .awaitingForeground => s.children = []
  | .awaitingBackground =>
      ∃ i, s.retained = some i ∧ i < s.nextId ∧
        (s.children = [] ∨ ∃ l, s.children = [⟨i, l⟩])

lemma childrenOk_init : ChildrenOk initSys := rfl

lemma stepChildren_nil (a : ActionType) : stepChildren [] a = ([], []) := rfl

lemma stepChildren_singleton (c : Child) (a : ActionType) :
    (stepChildren [c] a).1 = [] ∨
      ∃ l, (stepChildren [c] a).1 = [⟨c.id, l⟩] := by
  by_cases h : (listenerStep c.state a).1 = ListenerState.done
  · exact Or.inl (by simp [stepChildren, stepChild, stepChildren_nil, h])
  · exact Or.inr ⟨(listenerStep c.state a).1,
      by simp [stepChildren, stepChild, stepChildren_nil, h]⟩

lemma childrenOk_step (s : SysState) (a : ActionType) (h : ChildrenOk s) :
    ChildrenOk (sysStep s a).1 := by
  obtain ⟨p, ch, r, n⟩ := s
  cases a with
  | IN_APP =>
      cases p with
      | awaitingForeground =>
          have hch : ch = [] := h
          subst hch
          exact ⟨n, rfl, Nat.lt_succ_self n, Or.inr ⟨ListenerState.waitingForLock, rfl⟩⟩
      | awaitingBackground => exact h
  | OUT_APP =>
      cases p with
      | awaitingForeground => exact h
      | awaitingBackground =>
          obtain ⟨i, hr, hi, hch⟩ := h
          show cancelChild ch r = []
          rcases hch with hch | ⟨l, hch⟩ <;> subst hch <;> subst hr <;>
            simp [cancelChild]
  | LOCKED_APP =>
      cases p with
      | awaitingForeground =>
          have hch : ch = [] := h
          subst hch
          rfl
      | awaitingBackground =>
          obtain ⟨i, hr, hi, hch⟩ := h
          refine ⟨i, hr, hi, ?_⟩
          rcases hch with hch | ⟨l, hch⟩ <;> subst hch
          · exact Or.inl rfl
          · rcases stepChildren_singleton ⟨i, l⟩ _ with h1 | ⟨l2, h1⟩
            · exact Or.inl h1
            · exact Or.inr ⟨l2, h1⟩
  | BIOMETRICS_SUCCESS =>
      cases p with
      | awaitingForeground =>
          have hch : ch = [] := h
          subst hch
          rfl
      | awaitingBackground =>
          obtain ⟨i, hr, hi, hch⟩ := h
          refine ⟨i, hr, hi, ?_⟩
          rcases hch with hch | ⟨l, hch⟩ <;> subst hch
          · exact Or.inl rfl
          · rcases stepChildren_singleton ⟨i, l⟩ _ with h1 | ⟨l2, h1⟩
            · exact Or.inl h1
            · exact Or.inr ⟨l2, h1⟩
  | AUTH_SUCCESS =>
      cases p with
      | awaitingForeground =>
          have hch : ch = [] := h
          subst hch
          rfl
      | awaitingBackground =>
          obtain ⟨i, hr, hi, hch⟩ := h
          refine ⟨i, hr, hi, ?_⟩
          rcases hch with hch | ⟨l, hch⟩ <;> subst hch
          · exact Or.inl rfl
          · rcases stepChildren_singleton ⟨i, l⟩ _ with h1 | ⟨l2, h1⟩
            · exact Or.inl h1
            · exact Or.inr ⟨l2, h1⟩
  | AUTH_ERROR =>
      cases p with
      | awaitingForeground =>
          have hch : ch = [] := h
          subst hch
          rfl
      | awaitingBackground =>
          obtain ⟨i, hr, hi, hch⟩ := h
          refine ⟨i, hr, hi, ?_⟩
          rcases hch with hch | ⟨l, hch⟩ <;> subst hch
          · exact Or.inl rfl
          · rcases stepChildren_singleton ⟨i, l⟩ _ with h1 | ⟨l2, h1⟩
            · exact Or.inl h1
            · exact Or.inr ⟨l2, h1⟩

lemma childrenOk_run (s : SysState) (as : List ActionType) (h : ChildrenOk s) :
    ChildrenOk (sysRun s as).1 := by
  induction as generalizing s with
  | nil => exact h
  | cons a as ih => exact ih (sysStep s a).1 (childrenOk_step s a h)

lemma childrenOk_length {s : SysState} (h : ChildrenOk s) :
    s.children.length ≤ 1 := by
  obtain ⟨p, ch, r, n⟩ := s
  cases p with
  | awaitingForeground =>
      have : ch = [] := h
      simp [this]
  | awaitingBackground =>
      obtain ⟨i, hr, hi, hch⟩ := h
      rcases hch with hch | ⟨l, hch⟩ <;> simp_all

lemma stepChildren_cmds {cs : List Child} {a : ActionType} {tc : TaggedCmd}
    (h : tc ∈ (stepChildren cs a).2) :
    ∃ c ∈ cs, tc.sessionId = c.id ∧ tc.cmd ∈ (listenerStep c.state a).2 := by
  induction cs with
  | nil => simp [stepChildren] at h
  | cons c cs ih =>
      simp only [stepChildren] at h
      rw [List.mem_append] at h
      rcases h with h | h
      · simp only [stepChild, List.mem_map] at h
        obtain ⟨k, hk, he⟩ := h
        refine ⟨c, List.mem_cons_self c cs, ?_, ?_⟩
        · rw [← he]
        · rw [← he]; exact hk
      · obtain ⟨d, hd, h1, h2⟩ := ih h
        exact ⟨d, List.mem_cons_of_mem c hd, h1, h2⟩

lemma stepChildren_ids {cs : List Child} {a : ActionType} {d : Child}
    (h : d ∈ (stepChildren cs a).1) : ∃ c ∈ cs, d.id = c.id := by
  induction cs with
  | nil => simp [stepChildren] at h
  | cons c cs ih =>
      by_cases hd : (listenerStep c.state a).1 = ListenerState.done
      · simp only [stepChildren, stepChild, hd, if_pos] at h
        obtain ⟨e, he, h1⟩ := ih h
        exact ⟨e, List.mem_cons_of_mem c he, h1⟩
      · simp only [stepChildren, stepChild, hd, if_neg, not_false_iff] at h
        rcases List.mem_cons.1 h with h1 | h1
        · exact ⟨c, List.mem_cons_self c cs, by rw [h1]⟩
        · obtain ⟨e, he, h2⟩ := ih h1
          exact ⟨e, List.mem_cons_of_mem c he, h2⟩

lemma sysStep_cmds {s : SysState} {a : ActionType} {tc : TaggedCmd}
    (h : tc ∈ (sysStep s a).2) :
    ∃ c ∈ s.children, tc.sessionId = c.id ∧ tc.cmd ∈ (listenerStep c.state a).2 := by
  obtain ⟨p, ch, r, n⟩ := s
  cases a with
  | IN_APP => cases p <;> simp [sysStep] at h
  | OUT_APP => cases p <;> simp [sysStep] at h
  | LOCKED_APP => exact stepChildren_cmds h
  | BIOMETRICS_SUCCESS => exact stepChildren_cmds h
  | AUTH_SUCCESS => exact stepChildren_cmds h
  | AUTH_ERROR => exact stepChildren_cmds h

lemma sysStep_ids {s : SysState} {a : ActionType} {d : Child}
    (h : d ∈ (sysStep s a).1.children) :
    (∃ c ∈ s.children, d.id = c.id) ∨ d.id = s.nextId := by
  obtain ⟨p, ch, r, n⟩ := s
  cases a with
  | IN_APP =>
      cases p with
      | awaitingForeground =>
          rcases List.mem_append.1 h with h1 | h1
          · exact Or.inl ⟨d, h1, rfl⟩
          · right
            have : d = ⟨n, ListenerState.waitingForLock⟩ := by simpa using h1
            rw [this]
      | awaitingBackground => exact Or.inl ⟨d, h, rfl⟩
  | OUT_APP =>
      cases p with
      | awaitingForeground => exact Or.inl ⟨d, h, rfl⟩
      | awaitingBackground =>
          cases r with
          | none => exact Or.inl ⟨d, h, rfl⟩
          | some i => exact Or.inl ⟨d, List.mem_of_mem_filter h, rfl⟩
  | LOCKED_APP =>
      obtain ⟨c, hc, h1⟩ := stepChildren_ids h
      exact Or.inl ⟨c, hc, h1⟩
  | BIOMETRICS_SUCCESS =>
      obtain ⟨c, hc, h1⟩ := stepChildren_ids h
      exact Or.inl ⟨c, hc, h1⟩
  | AUTH_SUCCESS =>
      obtain ⟨c, hc, h1⟩ := stepChildren_ids h
      exact Or.inl ⟨c, hc, h1⟩
  | AUTH_ERROR =>
      obtain ⟨c, hc, h1⟩ := stepChildren_ids h
      exact Or.inl ⟨c, hc, h1⟩

lemma sysStep_nextId (s : SysState) (a : ActionType) :
    s.nextId ≤ (sysStep s a).1.nextId := by
  obtain ⟨p, ch, r, n⟩ := s
  cases a <;> cases p <;> simp [sysStep]

lemma sysRun_fresh_avoid (i : Nat) (as : List ActionType) :
    ∀ s : SysState, (∀ c ∈ s.children, c.id ≠ i) → i < s.nextId →
      ∀ tc ∈ (sysRun s as).2, tc.sessionId ≠ i := by
  induction as with
  | nil =>
      intro s h1 h2 tc htc
      simp [sysRun] at htc
  | cons a as ih =>
      intro s h1 h2 tc htc
      simp only [sysRun] at htc
      rcases List.mem_append.1 htc with h | h
      · obtain ⟨c, hc, he, _⟩ := sysStep_cmds h
        rw [he]
        exact h1 c hc
      · refine ih (sysStep s a).1 ?_ ?_ tc h
        · intro d hd
          rcases sysStep_ids hd with ⟨c, hc, he⟩ | he
          · rw [he]; exact h1 c hc
          · rw [he]; omega
        · exact lt_of_lt_of_le h2 (sysStep_nextId s a)

lemma listenerStep_navigate {l : ListenerState} {a : ActionType}
    (h : NavCommand.navigate Routes.LOCK_SCREEN ∈ (listenerStep l a).2) :
    a = ActionType.LOCKED_APP ∧ l = ListenerState.waitingForLock := by
  cases l <;> cases a <;> simp_all [listenerStep]

lemma run_navigate_requires_lock (as : List ActionType) :
    ∀ s : SysState,
      NavCommand.navigate Routes.LOCK_SCREEN ∈ ((sysRun s as).2).map TaggedCmd.cmd →
      ActionType.LOCKED_APP ∈ as := by
  induction as with
  | nil => intro s h; simp [sysRun] at h
  | cons a as ih =>
      intro s h
      simp only [sysRun] at h
      rw [List.map_append, List.mem_append] at h
      rcases h with h | h
      · rw [List.mem_map] at h
        obtain ⟨tc, htc, he⟩ := h
        obtain ⟨c, hc, _, hcmd⟩ := sysStep_cmds htc
        rw [he] at hcmd
        rw [(listenerStep_navigate hcmd).1]
        exact List.mem_cons_self _ _
      · exact List.mem_cons_of_mem a (ih (sysStep s a).1 h)

lemma authTraceState_succ (vs : Nat → ResumeVal) (n : Nat) :
    authTraceState vs (n + 1) = (authGenStep (authTraceState vs n) (vs n)).1 := rfl

lemma authTrace_cycle (vs : Nat → ResumeVal) (q : Nat) :
    authTraceState vs (4 * q) = authGenInit := by
  induction q with
  | zero => rfl
  | succ q ih =>
      have h4 : 4 * (q + 1) = 4 * q + 1 + 1 + 1 + 1 := by ring
      rw [h4, authTraceState_succ, authTraceState_succ, authTraceState_succ,
        authTraceState_succ, ih]
      rfl

lemma authTrace_state1 (vs : Nat → ResumeVal) (q : Nat) :
    authTraceState vs (4 * q + 1) = ⟨1, none⟩ := by
  rw [authTraceState_succ, authTrace_cycle]
  rfl

lemma authTrace_state2 (vs : Nat → ResumeVal) (q : Nat) :
    authTraceState vs (4 * q + 2) = ⟨2, taskOf (vs (4 * q + 1))⟩ := by
  have h : 4 * q + 2 = (4 * q + 1) + 1 := rfl
  rw [h, authTraceState_succ, authTrace_state1]
  rfl

lemma authTrace_state3 (vs : Nat → ResumeVal) (q : Nat) :
    authTraceState vs (4 * q + 3) = ⟨3, taskOf (vs (4 * q + 1))⟩ := by
  have h : 4 * q + 3 = (4 * q + 2) + 1 := rfl
  rw [h, authTraceState_succ, authTrace_state2]
  rfl

lemma authGenStep_cmds (g : AuthGenState) (v : ResumeVal) :
    (authGenStep g v).2.1 = [] := by
  obtain ⟨pc, r⟩ := g
  fin_cases pc <;> rfl

lemma authCmdsAt_nil (vs : Nat → ResumeVal) (m : Nat) : authCmdsAt vs m = [] :=
  authGenStep_cmds (authTraceState vs m) (vs m)

/-- Claim C1: fed the bus sequence `[AppForegrounded, LockEngaged,
BiometricSucceeded, AuthSucceeded]` with no other intervening signals, the
system emits exactly `Navigate("LockScreen")` followed by one
`ReplaceStack` of the onboarding-complete wallet-home route, and nothing
else. -/
theorem run_unlock_scenario_commands :
    run [ActionType.IN_APP, ActionType.LOCKED_APP,
         ActionType.BIOMETRICS_SUCCESS, ActionType.AUTH_SUCCESS] =
      [NavCommand.navigate Routes.LOCK_SCREEN,
       NavCommand.replaceStack Routes.HOME_NAV (some Routes.WALLET_VIEW)] := by
  decide

/-- Claim C3: fed `[AppForegrounded, LockEngaged, BiometricSucceeded,
LockEngaged]` (re-lock wins the outcome race), the system emits exactly
`Navigate("LockScreen")` then `ReplaceStack("LockScreen")`, and the
listener task has terminated after the second command (no live listener
remains). -/
theorem run_relock_scenario_commands :
    run [ActionType.IN_APP, ActionType.LOCKED_APP,
         ActionType.BIOMETRICS_SUCCESS, ActionType.LOCKED_APP] =
      [NavCommand.navigate Routes.LOCK_SCREEN,
       NavCommand.replaceStack Routes.LOCK_SCREEN none] ∧
    (sysRun initSys [ActionType.IN_APP, ActionType.LOCKED_APP,
         ActionType.BIOMETRICS_SUCCESS, ActionType.LOCKED_APP]).1.children = [] := by
  decide

/-- Claim C5: fed `[AppForegrounded, AppBackgrounded, AppForegrounded,
LockEngaged, BiometricSucceeded, AuthSucceeded]`, the first foreground
session is cancelled with zero commands issued and the parent is back at
its initial wait, the second `AppForegrounded` forks a fresh listener
instance (new task id, initial listener state, nothing carried over), and
the whole run emits exactly `[Navigate("LockScreen"),
ReplaceStack(WalletHomeRoute)]`. -/
theorem run_background_then_fresh_session :
    (sysRun initSys [ActionType.IN_APP, ActionType.OUT_APP]).2 = [] ∧
    (sysRun initSys [ActionType.IN_APP, ActionType.OUT_APP]).1 =
      ⟨ParentState.awaitingForeground, [], none, 1⟩ ∧
    (sysRun initSys [ActionType.IN_APP, ActionType.OUT_APP, ActionType.IN_APP]).1 =
      ⟨ParentState.awaitingBackground, [⟨1, ListenerState.waitingForLock⟩], some 1, 2⟩ ∧
    run [ActionType.IN_APP, ActionType.OUT_APP, ActionType.IN_APP,
         ActionType.LOCKED_APP, ActionType.BIOMETRICS_SUCCESS,
         ActionType.AUTH_SUCCESS] =
      [NavCommand.navigate Routes.LOCK_SCREEN,
       NavCommand.replaceStack Routes.HOME_NAV (some Routes.WALLET_VIEW)] := by
  decide

/-- Claim C2: the `authStateMachine` generator performs, in order and
forever: `take(IN_APP)`, one `fork(biometricsListener)`, `take(OUT_APP)`,
one `cancel` of exactly the task handle the fork resumed it with, then is
back in its initial suspension state (handle discarded); its body performs
no navigation commands at any resumption. -/
theorem authStateMachine_cycle_protocol (vs : Nat → ResumeVal) (q : Nat) :
    authEffectAt vs (4 * q) = Effect.takeEff [ActionType.IN_APP] ∧
    authEffectAt vs (4 * q + 1) = Effect.forkEff SagaRef.biometricsListenerRef ∧
    authEffectAt vs (4 * q + 2) = Effect.takeEff [ActionType.OUT_APP] ∧
    authEffectAt vs (4 * q + 3) = Effect.cancelEff (taskOf (vs (4 * q + 1))) ∧
    authTraceState vs (4 * (q + 1)) = authGenInit ∧
    (∀ m : Nat, authCmdsAt vs m = []) := by
  refine ⟨?_, ?_, ?_, ?_, authTrace_cycle vs (q + 1), fun m => authCmdsAt_nil vs m⟩
  · cases q with
    | zero => rfl
    | succ p =>
        have h4 : 4 * (p + 1) = (4 * p + 3) + 1 := by ring
        rw [h4]
        show (authGenStep (authTraceState vs (4 * p + 3)) (vs (4 * p + 3))).2.2 = _
        rw [authTrace_state3]
        rfl
  · show (authGenStep (authTraceState vs (4 * q)) (vs (4 * q))).2.2 = _
    rw [authTrace_cycle]
    rfl
  · have h : 4 * q + 2 = (4 * q + 1) + 1 := rfl
    rw [h]
    show (authGenStep (authTraceState vs (4 * q + 1)) (vs (4 * q + 1))).2.2 = _
    rw [authTrace_state1]
    rfl
  · have h : 4 * q + 3 = (4 * q + 2) + 1 := rfl
    rw [h]
    show (authGenStep (authTraceState vs (4 * q + 2)) (vs (4 * q + 2))).2.2 = _
    rw [authTrace_state2]
    rfl

/-- Claim C4: suspended at the outcome race, the listener races over
exactly the three signal kinds `{AuthSucceeded, LockEngaged, AuthErrored}`
(in the test's order `[AUTH_SUCCESS, LOCKED_APP, AUTH_ERROR]`), and any
winner other than `AuthSucceeded` is handled identically to a re-lock:
the same single `ReplaceStack("LockScreen")` command, the same terminal
state, no further signal awaited. -/
theorem authErrored_handled_as_relock (a : ActionType)
    (hmem : a ∈ [ActionType.AUTH_SUCCESS, ActionType.LOCKED_APP, ActionType.AUTH_ERROR])
    (hne : a ≠ ActionType.AUTH_SUCCESS) :
    (∀ v : ResumeVal, listenerGenStep ⟨1⟩ v =
      ListenerGenOut.yielded []
        (Effect.takeEff
          [ActionType.AUTH_SUCCESS, ActionType.LOCKED_APP, ActionType.AUTH_ERROR])
        ⟨2⟩) ∧
    listenerStep ListenerState.waitingForOutcome a =
      (ListenerState.done, [NavCommand.replaceStack Routes.LOCK_SCREEN none]) ∧
    listenerStep ListenerState.waitingForOutcome a =
      listenerStep ListenerState.waitingForOutcome ActionType.LOCKED_APP ∧
    listenerGenStep ⟨2⟩ (ResumeVal.action a) =
      ListenerGenOut.finished [NavCommand.replaceStack Routes.LOCK_SCREEN none] := by
  refine ⟨fun v => rfl, ?_, ?_, ?_⟩ <;>
    cases a <;> simp_all [listenerStep, listenerGenStep]

/-- Witness for claim C4 at the concrete winner `AUTH_ERROR`. -/
theorem authErrored_handled_as_relock_witness :
    ActionType.AUTH_ERROR ∈
      [ActionType.AUTH_SUCCESS, ActionType.LOCKED_APP, ActionType.AUTH_ERROR] ∧
    listenerStep ListenerState.waitingForOutcome ActionType.AUTH_ERROR =
      (ListenerState.done, [NavCommand.replaceStack Routes.LOCK_SCREEN none]) :=
  ⟨by decide,
   (authErrored_handled_as_relock ActionType.AUTH_ERROR (by decide) (by decide)).2.1⟩

/-- Claim C6: if the parent cancels the listener task (an `OUT_APP` while
the parent is at `take(OUT_APP)` holding the handle) while the listener is
suspended at any wait point, the cancellation itself issues nothing and
removes the task at its suspension point; no navigation command of that
task id is ever issued afterwards; and commands already issued earlier in
the run persist unchanged as a prefix of the full command sequence
(cancellation performs no rollback). -/
theorem cancel_silences_listener (i : Nat) (l : ListenerState) (n : Nat)
    (rest : List ActionType) (hin : i < n) :
    (sysStep ⟨ParentState.awaitingBackground, [⟨i, l⟩], some i, n⟩
        ActionType.OUT_APP =
      (⟨ParentState.awaitingForeground, [], none, n⟩, [])) ∧
    (∀ tc ∈ (sysRun ⟨ParentState.awaitingBackground, [⟨i, l⟩], some i, n⟩
        (ActionType.OUT_APP :: rest)).2, tc.sessionId ≠ i) ∧
    (∀ (s0 : SysState) (pre : List ActionType),
      (sysRun s0 (pre ++ (ActionType.OUT_APP :: rest))).2 =
        (sysRun s0 pre).2 ++
          (sysRun (sysRun s0 pre).1 (ActionType.OUT_APP :: rest)).2) := by
  have hstep : sysStep ⟨ParentState.awaitingBackground, [⟨i, l⟩], some i, n⟩
      ActionType.OUT_APP =
      (⟨ParentState.awaitingForeground, [], none, n⟩, []) := by
    simp [sysStep, cancelChild]
  refine ⟨hstep, ?_, ?_⟩
  · intro tc htc
    simp only [sysRun, hstep] at htc
    rw [List.nil_append] at htc
    exact sysRun_fresh_avoid i rest ⟨ParentState.awaitingForeground, [], none, n⟩
      (by intro c hc; simp at hc) hin tc htc
  · intro s0 pre
    rw [sysRun_append]

/-- Witness for claim C6: session 0 is cancelled at the outcome wait; the
single command the subsequent fresh session issues is tagged with the new
session id 1, not 0. -/
theorem cancel_silences_listener_witness :
    (0 : Nat) < 1 ∧
    (⟨1, NavCommand.navigate Routes.LOCK_SCREEN⟩ : TaggedCmd).sessionId ≠ 0 :=
  ⟨by decide,
   (cancel_silences_listener 0 ListenerState.waitingForOutcome 1
      [ActionType.IN_APP, ActionType.LOCKED_APP] (by decide)).2.1
     ⟨1, NavCommand.navigate Routes.LOCK_SCREEN⟩ (by decide)⟩

/-- Claim C7 (counterexample): on the bus sequence `[AppForegrounded,
LockEngaged]` the system has already emitted `Navigate("LockScreen")`
although no `BiometricSucceeded` signal occurs in the input at all, so the
navigate is not gated on observing `BiometricSucceeded`. -/
theorem navigate_requires_biometric_counterexample :
    run [ActionType.IN_APP, ActionType.LOCKED_APP] =
      [NavCommand.navigate Routes.LOCK_SCREEN] ∧
    ActionType.BIOMETRICS_SUCCESS ∉ [ActionType.IN_APP, ActionType.LOCKED_APP] := by
  decide

/-- Claim C7 (amended): in `WaitingForLock` the listener suspends until
`LockEngaged`; it is on receipt of that `LockEngaged` signal that it
issues `Navigate("LockScreen")` and advances to
`WaitingForBiometricSuccess` — for every run, `Navigate("LockScreen")` is
emitted only after a `LockEngaged` signal has been observed, never
before. -/
theorem navigate_emitted_on_lock_engaged :
    (listenerStep ListenerState.waitingForLock ActionType.LOCKED_APP =
      (ListenerState.waitingForBiometricSuccess,
        [NavCommand.navigate Routes.LOCK_SCREEN])) ∧
    (∀ a : ActionType, a ≠ ActionType.LOCKED_APP →
      listenerStep ListenerState.waitingForLock a =
        (ListenerState.waitingForLock, [])) ∧
    (∀ as : List ActionType,
      NavCommand.navigate Routes.LOCK_SCREEN ∈ run as →
        ActionType.LOCKED_APP ∈ as) := by
  refine ⟨rfl, ?_, ?_⟩
  · intro a ha
    cases a <;> simp_all [listenerStep]
  · intro as h
    exact run_navigate_requires_lock as initSys h

/-- Witness for the amended claim C7 at concrete inputs. -/
theorem navigate_emitted_on_lock_engaged_witness :
    listenerStep ListenerState.waitingForLock ActionType.IN_APP =
      (ListenerState.waitingForLock, []) ∧
    ActionType.LOCKED_APP ∈ [ActionType.IN_APP, ActionType.LOCKED_APP] :=
  ⟨navigate_emitted_on_lock_engaged.2.1 ActionType.IN_APP (by decide),
   navigate_emitted_on_lock_engaged.2.2
     [ActionType.IN_APP, ActionType.LOCKED_APP] (by decide)⟩

/-- Claim C8: at most one listener task is alive at any reachable point:
on every input sequence the set of live listener tasks has size at most
one, and an `AppForegrounded` observed while the parent is already in its
`Active` phase is a complete no-op (no second fork, nothing emitted, state
unchanged). -/
theorem at_most_one_listener_alive :
    (∀ as : List ActionType, ((sysRun initSys as).1).children.length ≤ 1) ∧
    (∀ (ch : List Child) (r : Option Nat) (n : Nat),
      sysStep ⟨ParentState.awaitingBackground, ch, r, n⟩ ActionType.IN_APP =
        (⟨ParentState.awaitingBackground, ch, r, n⟩, [])) := by
  constructor
  · intro as
    exact childrenOk_length (childrenOk_run initSys as childrenOk_init)
  · intro ch r n
    rfl

/-- Claim C9: the system is deterministic over the published signal order:
any two runs related to the same input sequence by the step semantics end
in the same state and emit identical navigation-command sequences. -/
theorem run_deterministic (as : List ActionType) (s1 s2 : SysState)
    (cs1 cs2 : List TaggedCmd)
    (h1 : RunRel initSys as s1 cs1) (h2 : RunRel initSys as s2 cs2) :
    cs1.map TaggedCmd.cmd = cs2.map TaggedCmd.cmd ∧ s1 = s2 := by
  obtain ⟨he, hc⟩ := runRel_deterministic h1 h2
  exact ⟨by rw [hc], he⟩

/-- Witness for claim C9 on a concrete input sequence. -/
theorem run_deterministic_witness :
    ((sysRun initSys [ActionType.IN_APP, ActionType.LOCKED_APP]).2).map
        TaggedCmd.cmd =
      ((sysRun initSys [ActionType.IN_APP, ActionType.LOCKED_APP]).2).map
        TaggedCmd.cmd :=
  (run_deterministic [ActionType.IN_APP, ActionType.LOCKED_APP] _ _ _ _
    (runRel_sysRun initSys [ActionType.IN_APP, ActionType.LOCKED_APP])
    (runRel_sysRun initSys [ActionType.IN_APP, ActionType.LOCKED_APP])).1

/-- Claim C10: the listener issues `Navigate("LockScreen")` no later than
the moment it starts suspending for `BiometricSucceeded`: the generator,
resumed out of `take(LOCKED_APP)`, performs the navigate and only then
yields `take(BIOMETRICS_SUCCESS)`; on the run `[AppForegrounded,
LockEngaged]`, where `BiometricSucceeded` never arrives, that one command
is already issued and the listener stays suspended at
`WaitingForBiometricSuccess`; and a navigate is only ever emitted by the
`WaitingForLock` step consuming `LockEngaged`, so it is emitted exactly
once per session. -/
theorem navigate_before_biometric_wait :
    (listenerStep ListenerState.waitingForLock ActionType.LOCKED_APP =
      (ListenerState.waitingForBiometricSuccess,
        [NavCommand.navigate Routes.LOCK_SCREEN])) ∧
    (∀ v : ResumeVal, listenerGenStep ⟨0⟩ v =
      ListenerGenOut.yielded [NavCommand.navigate Routes.LOCK_SCREEN]
        (Effect.takeEff [ActionType.BIOMETRICS_SUCCESS]) ⟨1⟩) ∧
    ((sysRun initSys [ActionType.IN_APP, ActionType.LOCKED_APP]).1.children =
      [⟨0, ListenerState.waitingForBiometricSuccess⟩]) ∧
    (run [ActionType.IN_APP, ActionType.LOCKED_APP] =
      [NavCommand.navigate Routes.LOCK_SCREEN]) ∧
    (∀ (l : ListenerState) (a : ActionType),
      NavCommand.navigate Routes.LOCK_SCREEN ∈ (listenerStep l a).2 →
        a = ActionType.LOCKED_APP ∧ l = ListenerState.waitingForLock) := by
  refine ⟨rfl, fun v => rfl, by decide, by decide, ?_⟩
  intro l a h
  exact listenerStep_navigate h

/-- Witness for claim C10 at the concrete emitting step. -/
theorem navigate_before_biometric_wait_witness :
    ActionType.LOCKED_APP = ActionType.LOCKED_APP ∧
    ListenerState.waitingForLock = ListenerState.waitingForLock :=
  navigate_before_biometric_wait.2.2.2.2 ListenerState.waitingForLock
    ActionType.LOCKED_APP (by decide)
